import Mathlib

/-!
Shallow embedding of the attestation bot's assessment core
(`bot/services/state.py`, `bot/services/question_engine.py`,
`bot/services/question_loader.py`, `bot/handlers/testing.py`).

Python strings are `String` (sequences of Unicode code points), Python
lists are `List`, Python dicts are association lists with last-binding-wins
lookup, Python sets are lists compared by mutual membership.  Operations
that can raise in Python return `Except String`.
-/

namespace AttestationBot

/-- `QuestionType` enum from `models.py`. -/
inductive QuestionType
  | single_choice
  | multi_choice
  | matching
deriving DecidableEq

/-- `Choice` dataclass from `models.py`. -/
structure Choice where
  id : String
  text : String
  is_correct : Bool := false
deriving DecidableEq

/-- `MatchingItem` dataclass from `models.py`. -/
structure MatchingItem where
  id : String
  label : String
deriving DecidableEq

/-- Dynamic answer payload (`Any` in the Python source): the shapes the
handlers can feed to `evaluate` and to the report builder. -/
inductive UserAnswer
  | pyNone
  | pyStr (s : String)
  | pyList (l : List String)
  | pyDict (m : List (String × String))
deriving DecidableEq

/-- `Question` dataclass from `models.py` (the free-form `meta` map is
dropped: no modelled operation reads it). -/
structure Question where
  id : String
  block : Nat
  topic : String
  prompt : String
  explanation : String
  type : QuestionType
  choices : List Choice := []
  matching_left : List MatchingItem := []
  matching_right : List MatchingItem := []
  correct_mapping : List (String × String) := []
deriving DecidableEq

/-- `QuestionResult` dataclass from `models.py`. -/
structure QuestionResult where
  question : Question
  is_correct : Bool
  user_answer : UserAnswer
deriving DecidableEq

/-- `UserProfile` dataclass from `state.py`. -/
structure UserProfile where
  full_name : String
  position : String
deriving DecidableEq

/-- `Session` dataclass from `state.py` (the Telegram message id is
dropped: no modelled operation reads it). -/
structure Session where
  profile : UserProfile
  block_one : List Question
  block_two : List Question
  current_block : Nat := 1
  current_index : Nat := 0
  answers : List QuestionResult := []
  multi_choice_state : List (String × List String) := []
  matching_state : List (String × List (String × String)) := []
  matching_focus : List (String × Option String) := []
  review_index : Option Nat := none
  block_titles : List (Nat × String) := [(1, "Блок 1"), (2, "Блок 2")]
deriving DecidableEq

/-- `Session.current_list`. -/
def Session.current_list (s : Session) : List Question :=
  if s.current_block = 1 then s.block_one else s.block_two

/-- `Session.current_question`; Python raises `IndexError` out of range,
modelled as `none`. -/
def Session.current_question? (s : Session) : Option Question :=
  s.current_list.get? s.current_index

/-- `Session.total_questions`. -/
def Session.total_questions (s : Session) : Nat :=
  s.block_one.length + s.block_two.length

/-- `Session.advance` from `state.py`: the index is incremented first and
every test reads the incremented value. -/
def Session.advance (s : Session) : Session × String :=
  if s.current_block = 1 ∧ s.block_one.length ≤ s.current_index + 1 then
    if s.block_two ≠ [] then
      ({ s with current_block := 2, current_index := 0 }, "switch")
    else
      ({ s with current_index := s.current_index + 1 }, "done")
  else if s.current_block = 2 ∧ s.block_two.length ≤ s.current_index + 1 then
    ({ s with current_index := s.current_index + 1 }, "done")
  else
    ({ s with current_index := s.current_index + 1 }, "next")

/-- C1: advance() increments current_index; if that finishes block 1 and
block 2 is non-empty it switches to block 2 at index 0 and returns
"switch"; if the just-finished block is the last non-empty one (including
finishing block 1 with block 2 empty) it returns "done"; in every other
case it returns "next". -/
theorem advance_status_cases (s : Session) :
    (s.current_block = 1 → s.block_one.length ≤ s.current_index + 1 → s.block_two ≠ [] →
      (s.advance).2 = "switch" ∧ (s.advance).1.current_block = 2 ∧
        (s.advance).1.current_index = 0) ∧
    (s.current_block = 1 → s.block_one.length ≤ s.current_index + 1 → s.block_two = [] →
      (s.advance).2 = "done" ∧ (s.advance).1.current_index = s.current_index + 1 ∧
        (s.advance).1.current_block = 1) ∧
    (s.current_block = 2 → s.block_two.length ≤ s.current_index + 1 →
      (s.advance).2 = "done" ∧ (s.advance).1.current_index = s.current_index + 1 ∧
        (s.advance).1.current_block = 2) ∧
    (¬ (s.current_block = 1 ∧ s.block_one.length ≤ s.current_index + 1) →
     ¬ (s.current_block = 2 ∧ s.block_two.length ≤ s.current_index + 1) →
      (s.advance).2 = "next" ∧ (s.advance).1.current_index = s.current_index + 1 ∧
        (s.advance).1.current_block = s.current_block) := by
  unfold Session.advance
  split_ifs with h1 h2 h3 <;> simp_all

/-- Scenario session for exercising `advance` concretely: two questions in
block one, one in block two. -/
def demoQuestion (qid : String) (blk : Nat) : Question :=
  { id := qid, block := blk, topic := "t", prompt := "p", explanation := "e",
    type := QuestionType.single_choice,
    choices := [{ id := "c1", text := "a", is_correct := true }] }

/-- Demo session matching the spec scenario: block one has 2 questions,
block two has 1. -/
def demoSession : Session :=
  { profile := { full_name := "Иван Иванов", position := "Менеджер" },
    block_one := [demoQuestion "q1" 1, demoQuestion "q2" 1],
    block_two := [demoQuestion "q3" 2] }

theorem advance_status_cases_witness :
    ((demoSession.advance).2 = "next" ∧
      (demoSession.advance).1.current_index = demoSession.current_index + 1 ∧
      (demoSession.advance).1.current_block = demoSession.current_block) ∧
    (((demoSession.advance).1.advance).2 = "switch" ∧
      ((demoSession.advance).1.advance).1.current_block = 2 ∧
      ((demoSession.advance).1.advance).1.current_index = 0) ∧
    ((((demoSession.advance).1.advance).1.advance).2 = "done" ∧
      (((demoSession.advance).1.advance).1.advance).1.current_index =
        ((demoSession.advance).1.advance).1.current_index + 1 ∧
      (((demoSession.advance).1.advance).1.advance).1.current_block = 2) := by
  refine ⟨?_, ?_, ?_⟩
  · exact (advance_status_cases demoSession).2.2.2 (by decide) (by decide)
  · exact ((advance_status_cases (demoSession.advance).1).1 (by decide) (by decide)
      (by decide))
  · exact ((advance_status_cases ((demoSession.advance).1.advance).1).2.2.1 (by decide)
      (by decide))

/-- Counterexample session for C4: the last question of block one is being
answered, so the upcoming advance switches blocks and resets the index. -/
def switchingSession : Session :=
  { demoSession with current_index := 1 }

/-- C4 counterexample: advance is not monotonic in current_index — at the
block switch the index drops from 1 back to 0. -/
theorem advance_monotonic_counterexample :
    (switchingSession.advance).1.current_index < switchingSession.current_index := by
  decide

/-- C4 amended: advance strictly increases the pair
(current_block, current_index) lexicographically; current_index itself
never decreases except at the block-1-to-block-2 switch, where it resets
to 0. -/
theorem advance_lex_increasing (s : Session) :
    s.current_block < (s.advance).1.current_block ∨
      ((s.advance).1.current_block = s.current_block ∧
        s.current_index < (s.advance).1.current_index) := by
  unfold Session.advance
  split_ifs with h1 h2 h3 <;> simp_all

/-! Python value semantics used by the evaluator (`question_engine.py`). -/

/-- `dict.get`: association-list lookup where the last binding wins, as in
a Python dict built by successive insertions. -/
def pyGet (m : List (String × String)) (k : String) : Option String :=
  ((m.filter (fun p => p.1 = k)).getLast?).map Prod.snd

/-- Python `dict ==` on the association-list model: same keys, same
values. -/
def pyDictEq (a b : List (String × String)) : Bool :=
  (a.map Prod.fst ++ b.map Prod.fst).all (fun k => pyGet a k == pyGet b k)

/-- Python `set ==` on the list-as-set model: mutual membership. -/
def pySetEq (a b : List String) : Bool :=
  a.all (fun x => b.contains x) && b.all (fun x => a.contains x)

/-- `set(user_answer or [])` in the multi-choice branch of `evaluate`:
iterating a string yields its characters, iterating a dict yields its
keys; `None` and empty values give the empty set. -/
def toPySet : UserAnswer → List String
  | UserAnswer.pyNone => []
  | UserAnswer.pyStr s => s.data.map (fun c => String.mk [c])
  | UserAnswer.pyList l => l
  | UserAnswer.pyDict m => m.map Prod.fst

/-- `dict(list)`: every element must be a length-2 sequence — a string
element of any other length raises `ValueError`. -/
def pyDictOfList : List String → Except String (List (String × String))
  | [] => Except.ok []
  | s :: rest =>
    match s.data with
    | [a, b] => (pyDictOfList rest).map (fun m => (String.mk [a], String.mk [b]) :: m)
    | _ => Except.error "ValueError: dictionary update sequence element has bad length"

/-- `dict(user_answer or \x7b\x7d)` in the matching branch of `evaluate`:
`None` and falsy values give the empty dict, a non-empty string always
raises `ValueError` (its elements are length-1 strings). -/
def toPyDict : UserAnswer → Except String (List (String × String))
  | UserAnswer.pyNone => Except.ok []
  | UserAnswer.pyStr s =>
    if s = "" then Except.ok []
    else Except.error "ValueError: dictionary update sequence element has bad length"
  | UserAnswer.pyList l => pyDictOfList l
  | UserAnswer.pyDict m => Except.ok m

/-- `user_answer in correct_ids` where `correct_ids` is a Python set of
strings: membership hashes the operand, so list and dict payloads raise
`TypeError: unhashable type`. -/
def pyInSet : UserAnswer → List String → Except String Bool
  | UserAnswer.pyNone, _ => Except.ok false
  | UserAnswer.pyStr x, s => Except.ok (s.contains x)
  | UserAnswer.pyList _, _ => Except.error "TypeError: unhashable type: list"
  | UserAnswer.pyDict _, _ => Except.error "TypeError: unhashable type: dict"

/-- The set comprehension `\x7bchoice.id for choice in question.choices if
choice.is_correct\x7d` used by `evaluate`. -/
def correct_ids (q : Question) : List String :=
  (q.choices.filter (fun c => c.is_correct)).map Choice.id

/-- `QuestionEngine.evaluate` from `question_engine.py`; the Python
`else: is_correct = False` arm is unreachable because `QuestionType` is a
closed three-value enum. -/
def evaluate (q : Question) (ua : UserAnswer) : Except String QuestionResult :=
  match q.type with
  | QuestionType.single_choice =>
    (pyInSet ua (correct_ids q)).map
      (fun b => { question := q, is_correct := b, user_answer := ua })
  | QuestionType.multi_choice =>
    let user_ids := toPySet ua
    Except.ok { question := q,
                is_correct := pySetEq user_ids (correct_ids q) && !user_ids.isEmpty,
                user_answer := ua }
  | QuestionType.matching =>
    (toPyDict ua).map
      (fun m => { question := q, is_correct := pyDictEq m q.correct_mapping,
                  user_answer := ua })

/-- The exact payload shapes on which `evaluate` raises: an unhashable
payload tested for set membership (single-choice), or a payload that
`dict(...)` cannot convert (matching). -/
def evalRaises (q : Question) (ua : UserAnswer) : Bool :=
  match q.type, ua with
  | QuestionType.single_choice, UserAnswer.pyList _ => true
  | QuestionType.single_choice, UserAnswer.pyDict _ => true
  | QuestionType.matching, UserAnswer.pyStr s => s != ""
  | QuestionType.matching, UserAnswer.pyList l => !(l.all (fun e => e.length == 2))
  | _, _ => false

theorem isOk_map {α β : Type} (f : α → β) (e : Except String α) :
    (e.map f).isOk = e.isOk := by
  cases e <;> rfl

theorem pyDictOfList_isOk (l : List String) :
    (pyDictOfList l).isOk = l.all (fun e => e.length == 2) := by
  induction l with
  | nil => rfl
  | cons a t ih =>
    unfold pyDictOfList
    cases h : a.data with
    | nil =>
      have h2 : a.length = 0 := by rw [show a.length = a.data.length from rfl, h]; rfl
      simp [Except.isOk, Except.toBool, h2]
    | cons x xs =>
      cases xs with
      | nil =>
        have h2 : a.length = 1 := by rw [show a.length = a.data.length from rfl, h]; rfl
        simp [Except.isOk, Except.toBool, h2]
      | cons y ys =>
        cases ys with
        | nil =>
          have h2 : a.length = 2 := by rw [show a.length = a.data.length from rfl, h]; rfl
          rw [isOk_map, ih]
          simp [h2]
        | cons z zs =>
          have h2 : a.length = zs.length + 3 := by
            rw [show a.length = a.data.length from rfl, h]; rfl
          simp [Except.isOk, Except.toBool, h2]

/-- C3 counterexample: `evaluate` is not total — a list payload submitted
against a single-choice question raises `TypeError` (unhashable operand of
set membership) instead of scoring as incorrect. -/
theorem evaluate_total_counterexample :
    evaluate (demoQuestion "q" 1) (UserAnswer.pyList ["c1"]) =
      Except.error "TypeError: unhashable type: list" := by
  rfl

/-- C3 amended: `evaluate` returns a `QuestionResult` carrying the given
question and payload — and never raises — for every payload except an
unhashable (list or dict) payload on a single-choice question and a
payload `dict(...)` cannot convert on a matching question (a non-empty
string, or a list with an element whose length is not 2), which raise
`TypeError`/`ValueError`. -/
theorem evaluate_total_amended (q : Question) (ua : UserAnswer) :
    ((evaluate q ua).isOk = true ↔ evalRaises q ua = false) ∧
    (∀ r, evaluate q ua = Except.ok r → r.question = q ∧ r.user_answer = ua) := by
  constructor
  · cases hq : q.type
    case single_choice =>
      cases ua <;>
        simp [evaluate, hq, evalRaises, pyInSet, Except.map, Except.isOk, Except.toBool]
    case multi_choice =>
      cases ua <;>
        simp [evaluate, hq, evalRaises, Except.isOk, Except.toBool]
    case matching =>
      cases ua with
      | pyNone =>
        simp [evaluate, hq, evalRaises, toPyDict, Except.map, Except.isOk, Except.toBool]
      | pyStr s =>
        by_cases hs : s = "" <;>
          simp [evaluate, hq, evalRaises, toPyDict, hs, Except.map, Except.isOk,
            Except.toBool]
      | pyList l =>
        simp only [evaluate, hq, toPyDict, isOk_map, pyDictOfList_isOk, evalRaises]
        simp
      | pyDict m =>
        simp [evaluate, hq, evalRaises, toPyDict, Except.map, Except.isOk, Except.toBool]
  · intro r hr
    cases hq : q.type
    case single_choice =>
      cases ua <;> simp [evaluate, hq, pyInSet, Except.map] at hr <;>
        (subst hr; exact ⟨rfl, rfl⟩)
    case multi_choice =>
      simp [evaluate, hq] at hr
      subst hr; exact ⟨rfl, rfl⟩
    case matching =>
      cases ua with
      | pyNone =>
        simp [evaluate, hq, toPyDict, Except.map] at hr
        subst hr; exact ⟨rfl, rfl⟩
      | pyStr s =>
        by_cases hs : s = ""
        · subst hs
          simp [evaluate, hq, toPyDict, Except.map] at hr
          subst hr; exact ⟨rfl, rfl⟩
        · simp [evaluate, hq, toPyDict, hs, Except.map] at hr
      | pyList l =>
        cases hd : pyDictOfList l <;> simp [evaluate, hq, toPyDict, hd, Except.map] at hr
        subst hr; exact ⟨rfl, rfl⟩
      | pyDict m =>
        simp [evaluate, hq, toPyDict, Except.map] at hr
        subst hr; exact ⟨rfl, rfl⟩

theorem evaluate_total_amended_witness :
    ((evaluate (demoQuestion "w3" 1) (UserAnswer.pyStr "c1")).isOk = true ↔
      evalRaises (demoQuestion "w3" 1) (UserAnswer.pyStr "c1") = false) ∧
    ({ question := demoQuestion "w3" 1, is_correct := true,
       user_answer := UserAnswer.pyStr "c1" : QuestionResult }.question =
        demoQuestion "w3" 1 ∧
     { question := demoQuestion "w3" 1, is_correct := true,
       user_answer := UserAnswer.pyStr "c1" : QuestionResult }.user_answer =
        UserAnswer.pyStr "c1") :=
  ⟨(evaluate_total_amended (demoQuestion "w3" 1) (UserAnswer.pyStr "c1")).1,
   (evaluate_total_amended (demoQuestion "w3" 1) (UserAnswer.pyStr "c1")).2
     { question := demoQuestion "w3" 1, is_correct := true,
       user_answer := UserAnswer.pyStr "c1" } rfl⟩

/-- C7: for a multi-choice question, `evaluate` judges a submitted list of
choice ids correct iff, as a set, it equals exactly the set of ids of the
choices flagged correct and it is non-empty; the empty submission is
always incorrect. -/
theorem evaluate_multi_choice_iff (q : Question) (l : List String)
    (h : q.type = QuestionType.multi_choice) :
    ∃ r, evaluate q (UserAnswer.pyList l) = Except.ok r ∧
      (r.is_correct = true ↔ ((∀ x, x ∈ l ↔ x ∈ correct_ids q) ∧ l ≠ [])) ∧
      (l = [] → r.is_correct = false) := by
  refine ⟨{ question := q,
            is_correct := pySetEq l (correct_ids q) && !l.isEmpty,
            user_answer := UserAnswer.pyList l }, by simp [evaluate, h, toPySet], ?_, ?_⟩
  · have hset : pySetEq l (correct_ids q) = true ↔ (∀ x, x ∈ l ↔ x ∈ correct_ids q) := by
      simp only [pySetEq, Bool.and_eq_true, List.all_eq_true]
      constructor
      · rintro ⟨hab, hba⟩ x
        constructor
        · intro hx; simpa using hab x hx
        · intro hx; simpa using hba x hx
      · intro hiff
        constructor
        · intro x hx; simpa using (hiff x).mp hx
        · intro x hx; simpa using (hiff x).mpr hx
    have hemp : (!l.isEmpty) = true ↔ l ≠ [] := by simp
    simp only [Bool.and_eq_true]
    rw [hset, hemp]
  · rintro rfl
    simp [pySetEq]

/-- Multi-choice demo question with two correct options. -/
def demoMultiQ : Question :=
  { id := "m1", block := 1, topic := "t", prompt := "p", explanation := "e",
    type := QuestionType.multi_choice,
    choices := [{ id := "c1", text := "a", is_correct := true },
                { id := "c2", text := "b", is_correct := true },
                { id := "c3", text := "c" }] }

theorem evaluate_multi_choice_iff_witness :
    ∃ r, evaluate demoMultiQ (UserAnswer.pyList ["c2", "c1"]) = Except.ok r ∧
      (r.is_correct = true ↔
        ((∀ x, x ∈ ["c2", "c1"] ↔ x ∈ correct_ids demoMultiQ) ∧ ["c2", "c1"] ≠ [])) ∧
      (["c2", "c1"] = [] → r.is_correct = false) :=
  evaluate_multi_choice_iff demoMultiQ ["c2", "c1"] rfl

/-! Review navigation (`handle_navigation` and the review-cursor reset in
`resolve_display_question`, `testing.py`). -/

/-- State effect of `resolve_display_question`: a review cursor outside
`answers` is reset to the live question; cursors are naturals, so the
Python `0 <= review_index` half of the range check always holds. -/
def resolve_review (s : Session) : Session :=
  match s.review_index with
  | Option.none => s
  | Option.some i =>
    if i < s.answers.length then s else { s with review_index := Option.none }

/-- `handle_navigation` from `testing.py`, including the
`resolve_display_question` reset performed by the re-render; Nat
subtraction models Python `max(0, review_index - 1)`. -/
def handle_navigation (s : Session) (direction : String) : Session :=
  if s.answers = [] then s
  else if direction = "prev" then
    match s.review_index with
    | Option.none => resolve_review { s with review_index := some (s.answers.length - 1) }
    | Option.some i => resolve_review { s with review_index := some (i - 1) }
  else if direction = "next" then
    match s.review_index with
    | Option.none => s
    | Option.some i =>
      if i < s.answers.length - 1 then resolve_review { s with review_index := some (i + 1) }
      else resolve_review { s with review_index := Option.none }
  else s

/-- Folding a list of navigation button presses over a session. -/
def navSeq (s : Session) (ds : List String) : Session :=
  ds.foldl handle_navigation s

theorem nav_empty (s : Session) (h : s.answers = []) (d : String) :
    handle_navigation s d = s := by
  simp [handle_navigation, h]

theorem nav_prev_none (s : Session) (h : s.answers ≠ []) (hr : s.review_index = Option.none) :
    handle_navigation s "prev" = { s with review_index := some (s.answers.length - 1) } := by
  have hlt : s.answers.length - 1 < s.answers.length :=
    Nat.sub_lt (List.length_pos.mpr h) one_pos
  simp [handle_navigation, resolve_review, h, hr, hlt]

theorem nav_prev_some (s : Session) (i : Nat) (h : s.answers ≠ [])
    (hr : s.review_index = some i) (hi : i < s.answers.length) :
    handle_navigation s "prev" = { s with review_index := some (i - 1) } := by
  have hlt : i - 1 < s.answers.length := by omega
  simp [handle_navigation, resolve_review, h, hr, hlt]

theorem nav_next_none (s : Session) (hr : s.review_index = Option.none) :
    handle_navigation s "next" = s := by
  by_cases h : s.answers = [] <;> simp [handle_navigation, h, hr]

theorem nav_next_some_lt (s : Session) (i : Nat) (h : s.answers ≠ [])
    (hr : s.review_index = some i) (hi : i < s.answers.length - 1) :
    handle_navigation s "next" = { s with review_index := some (i + 1) } := by
  have hlt : i + 1 < s.answers.length := by omega
  simp [handle_navigation, resolve_review, h, hr, hi, hlt]

theorem nav_next_some_last (s : Session) (i : Nat) (h : s.answers ≠ [])
    (hr : s.review_index = some i) (hi : ¬ i < s.answers.length - 1) :
    handle_navigation s "next" = { s with review_index := Option.none } := by
  simp [handle_navigation, resolve_review, h, hr, hi]

theorem resolve_review_frame (s : Session) :
    (resolve_review s).current_index = s.current_index ∧
    (resolve_review s).current_block = s.current_block ∧
    (resolve_review s).answers = s.answers := by
  unfold resolve_review
  cases s.review_index with
  | none => exact ⟨rfl, rfl, rfl⟩
  | some i => by_cases h : i < s.answers.length <;> simp [h]

theorem nav_frame (s : Session) (d : String) :
    (handle_navigation s d).current_index = s.current_index ∧
    (handle_navigation s d).current_block = s.current_block ∧
    (handle_navigation s d).answers = s.answers := by
  unfold handle_navigation
  split_ifs with h1 h2 h3
  · exact ⟨rfl, rfl, rfl⟩
  · cases s.review_index with
    | none =>
      exact resolve_review_frame { s with review_index := some (s.answers.length - 1) }
    | some i => exact resolve_review_frame { s with review_index := some (i - 1) }
  · cases s.review_index with
    | none => exact ⟨rfl, rfl, rfl⟩
    | some i =>
      by_cases hlt : i < s.answers.length - 1
      · simpa [hlt] using resolve_review_frame { s with review_index := some (i + 1) }
      · simpa [hlt] using resolve_review_frame { s with review_index := Option.none }
  · exact ⟨rfl, rfl, rfl⟩

/-- C5: review navigation — both directions are no-ops on an empty answer
log; "prev" enters review at the last answered index or decrements floored
at 0; "next" is a no-op when live, increments below the last recorded
answer and exits review at it; after 3 answers, prev three times then next
four times returns to the live question with answers intact; and no
navigation step changes current_index, current_block, or answers. -/
theorem navigation_spec (s : Session) :
    (s.answers = [] → handle_navigation s "prev" = s ∧ handle_navigation s "next" = s) ∧
    (s.answers ≠ [] → s.review_index = Option.none →
      (handle_navigation s "prev").review_index = some (s.answers.length - 1) ∧
      handle_navigation s "next" = s) ∧
    (∀ i, s.answers ≠ [] → s.review_index = some i → i < s.answers.length →
      (handle_navigation s "prev").review_index = some (i - 1) ∧
      (i < s.answers.length - 1 →
        (handle_navigation s "next").review_index = some (i + 1)) ∧
      (i = s.answers.length - 1 →
        (handle_navigation s "next").review_index = Option.none)) ∧
    (∀ d, (handle_navigation s d).current_index = s.current_index ∧
          (handle_navigation s d).current_block = s.current_block ∧
          (handle_navigation s d).answers = s.answers) ∧
    (s.answers.length = 3 → s.review_index = Option.none →
      (navSeq s ["prev", "prev", "prev", "next", "next", "next", "next"]).review_index =
        Option.none ∧
      (navSeq s ["prev", "prev", "prev", "next", "next", "next", "next"]).answers =
        s.answers) := by
  refine ⟨fun h => ⟨nav_empty s h "prev", nav_empty s h "next"⟩, ?_, ?_, nav_frame s, ?_⟩
  · intro h hr
    exact ⟨by rw [nav_prev_none s h hr], nav_next_none s hr⟩
  · intro i h hr hi
    refine ⟨by rw [nav_prev_some s i h hr hi], ?_, ?_⟩
    · intro hlt; rw [nav_next_some_lt s i h hr hlt]
    · intro heq; rw [nav_next_some_last s i h hr (by omega)]
  · intro h3 hr
    have hne : s.answers ≠ [] := by
      intro h0; rw [h0] at h3; exact absurd h3 (by decide)
    have e1 : handle_navigation s "prev" = { s with review_index := some 2 } := by
      rw [nav_prev_none s hne hr, h3]
    have e2 : handle_navigation { s with review_index := some 2 } "prev" =
        { s with review_index := some 1 } :=
      nav_prev_some { s with review_index := some 2 } 2 hne rfl
        (by show 2 < s.answers.length; omega)
    have e3 : handle_navigation { s with review_index := some 1 } "prev" =
        { s with review_index := some 0 } :=
      nav_prev_some { s with review_index := some 1 } 1 hne rfl
        (by show 1 < s.answers.length; omega)
    have e4 : handle_navigation { s with review_index := some 0 } "next" =
        { s with review_index := some 1 } :=
      nav_next_some_lt { s with review_index := some 0 } 0 hne rfl
        (by show 0 < s.answers.length - 1; omega)
    have e5 : handle_navigation { s with review_index := some 1 } "next" =
        { s with review_index := some 2 } :=
      nav_next_some_lt { s with review_index := some 1 } 1 hne rfl
        (by show 1 < s.answers.length - 1; omega)
    have e6 : handle_navigation { s with review_index := some 2 } "next" =
        { s with review_index := Option.none } :=
      nav_next_some_last { s with review_index := some 2 } 2 hne rfl
        (by show ¬ 2 < s.answers.length - 1; omega)
    have e7 : handle_navigation { s with review_index := Option.none } "next" =
        { s with review_index := Option.none } :=
      nav_next_none { s with review_index := Option.none } rfl
    simp only [navSeq, List.foldl]
    rw [e1, e2, e3, e4, e5, e6, e7]
    exact ⟨rfl, rfl⟩

/-- One recorded (correct) answer for building demo sessions. -/
def demoResult (qid : String) : QuestionResult :=
  { question := demoQuestion qid 1, is_correct := true,
    user_answer := UserAnswer.pyStr "c1" }

/-- Demo session with three recorded answers, at the live question. -/
def navDemoSession : Session :=
  { demoSession with
    block_two := [demoQuestion "q3" 2, demoQuestion "q4" 2, demoQuestion "q5" 2],
    current_block := 2, current_index := 1,
    answers := [demoResult "a1", demoResult "a2", demoResult "a3"] }

theorem navigation_spec_witness :
    ((navSeq navDemoSession
        ["prev", "prev", "prev", "next", "next", "next", "next"]).review_index =
      Option.none ∧
     (navSeq navDemoSession
        ["prev", "prev", "prev", "next", "next", "next", "next"]).answers =
      navDemoSession.answers) ∧
    ((handle_navigation navDemoSession "prev").review_index =
      some (navDemoSession.answers.length - 1) ∧
     handle_navigation navDemoSession "next" = navDemoSession) :=
  ⟨(navigation_spec navDemoSession).2.2.2.2 rfl rfl,
   (navigation_spec navDemoSession).2.1 (by decide) rfl⟩

/-! Answer submission (`ensure_active_question`, `finalize_answer`,
`handle_single_choice` in `testing.py`). -/

/-- Observable outcome of a single-choice submission: accepted (carrying
the advance status), rejected as stale, or an uncaught exception
(`IndexError` from reading past the block end, or an evaluator error). -/
inductive SubmitOutcome
  | accepted (status : String)
  | stale
  | indexError
  | evalError (msg : String)
deriving DecidableEq

/-- State effect of `process_final_step`: "done" runs `finish_session`,
which clears the review cursor; "switch" and "next" re-render, which
applies the `resolve_display_question` reset. -/
def process_final_step (s : Session) (status : String) : Session :=
  if status = "done" then { s with review_index := Option.none }
  else resolve_review s

/-- `finalize_answer` from `testing.py`: evaluate, append the result to
`answers`, advance, run the final step. An evaluator exception propagates
before anything is appended. -/
def finalize_answer (s : Session) (q : Question) (ua : UserAnswer) :
    Except String (Session × String) :=
  match evaluate q ua with
  | Except.error e => Except.error e
  | Except.ok r =>
    let s1 : Session := { s with answers := s.answers ++ [r] }
    Except.ok (process_final_step (s1.advance).1 (s1.advance).2, (s1.advance).2)

/-- `handle_single_choice` from `testing.py`: `ensure_active_question`
compares the submitted question id with the live question's id — and
nothing else — then finalizes; on mismatch the `ValueError` is caught and
the session is left untouched. -/
def handle_single_choice (s : Session) (question_id choice_id : String) :
    Session × SubmitOutcome :=
  match s.current_question? with
  | Option.none => (s, SubmitOutcome.indexError)
  | Option.some q =>
    if q.id = question_id then
      match finalize_answer s q (UserAnswer.pyStr choice_id) with
      | Except.error e => (s, SubmitOutcome.evalError e)
      | Except.ok (s2, st) => (s2, SubmitOutcome.accepted st)
    else (s, SubmitOutcome.stale)

theorem advance_answers (s : Session) : ((s.advance).1).answers = s.answers := by
  unfold Session.advance
  split_ifs <;> rfl

theorem process_final_step_frame (s : Session) (st : String) :
    (process_final_step s st).answers = s.answers ∧
    (process_final_step s st).current_index = s.current_index ∧
    (process_final_step s st).current_block = s.current_block := by
  unfold process_final_step
  split_ifs
  · exact ⟨rfl, rfl, rfl⟩
  · exact ⟨(resolve_review_frame s).2.2, (resolve_review_frame s).1,
      (resolve_review_frame s).2.1⟩

/-- Session in which the user is reviewing a past answer while the live
question (id "y") is still open. -/
def reviewSession : Session :=
  { demoSession with
    block_one := [demoQuestion "y" 1, demoQuestion "q2" 1],
    answers := [demoResult "x0"],
    review_index := some 0 }

/-- C2 counterexample: a submission whose question id matches the live
question is accepted even though review_index is not none, and it mutates
the answers — the code never consults review_index. -/
theorem submit_review_guard_counterexample :
    reviewSession.review_index = some 0 ∧
    (handle_single_choice reviewSession "y" "c1").2 = SubmitOutcome.accepted "next" ∧
    (handle_single_choice reviewSession "y" "c1").1.answers.length =
      reviewSession.answers.length + 1 :=
  ⟨rfl, rfl, rfl⟩

/-- C2 amended: a single-choice submission is accepted iff the submitted
question id equals the live question's id — review_index is not consulted;
when the ids differ the operation fails with StaleQuestion and the entire
session state (in particular answers, current_index, current_block) is
returned unchanged; when they match, the evaluated result is appended and
the session advances. -/
theorem submit_guard_amended (s : Session) (qid cid : String) (q : Question)
    (hq : s.current_question? = some q) :
    (q.id ≠ qid → handle_single_choice s qid cid = (s, SubmitOutcome.stale)) ∧
    (q.id = qid → ∀ r, evaluate q (UserAnswer.pyStr cid) = Except.ok r →
      (handle_single_choice s qid cid).2 =
        SubmitOutcome.accepted ({ s with answers := s.answers ++ [r] }.advance).2 ∧
      (handle_single_choice s qid cid).1.answers = s.answers ++ [r] ∧
      (handle_single_choice s qid cid).1.current_index =
        ({ s with answers := s.answers ++ [r] }.advance).1.current_index ∧
      (handle_single_choice s qid cid).1.current_block =
        ({ s with answers := s.answers ++ [r] }.advance).1.current_block) := by
  constructor
  · intro hne
    simp [handle_single_choice, hq, hne]
  · intro heq r hr
    have hfin : handle_single_choice s qid cid =
        (process_final_step ({ s with answers := s.answers ++ [r] }.advance).1
           ({ s with answers := s.answers ++ [r] }.advance).2,
         SubmitOutcome.accepted ({ s with answers := s.answers ++ [r] }.advance).2) := by
      simp [handle_single_choice, hq, heq, finalize_answer, hr]
    rw [hfin]
    refine ⟨rfl, ?_, ?_, ?_⟩
    · rw [(process_final_step_frame _ _).1, advance_answers]
    · exact (process_final_step_frame _ _).2.1
    · exact (process_final_step_frame _ _).2.2

theorem submit_guard_amended_witness :
    (handle_single_choice demoSession "zzz" "c1" = (demoSession, SubmitOutcome.stale)) ∧
    ((handle_single_choice demoSession "q1" "c1").2 =
        SubmitOutcome.accepted
          ({ demoSession with
              answers := demoSession.answers ++ [demoResult "q1"] }.advance).2 ∧
      (handle_single_choice demoSession "q1" "c1").1.answers =
        demoSession.answers ++ [demoResult "q1"] ∧
      (handle_single_choice demoSession "q1" "c1").1.current_index =
        ({ demoSession with
            answers := demoSession.answers ++ [demoResult "q1"] }.advance).1.current_index ∧
      (handle_single_choice demoSession "q1" "c1").1.current_block =
        ({ demoSession with
            answers := demoSession.answers ++ [demoResult "q1"] }.advance).1.current_block) :=
  ⟨(submit_guard_amended demoSession "zzz" "c1" (demoQuestion "q1" 1) rfl).1 (by decide),
   (submit_guard_amended demoSession "q1" "c1" (demoQuestion "q1" 1) rfl).2 rfl
     (demoResult "q1") rfl⟩

/-! Matching interaction (`handle_matching` in `testing.py`): the transient
draft for one matching question, i.e. `matching_state[qid]` together with
`matching_focus[qid]`. -/

/-- Per-question matching draft: the partial left-to-right mapping and the
optional focused left item. -/
structure MatchingDraft where
  mapping : List (String × String)
  focus : Option String
deriving DecidableEq

/-- Python `mapping[left] = right` on a dict: update in place when the key
exists, append otherwise. -/
def dict_set (m : List (String × String)) (k v : String) : List (String × String) :=
  if m.any (fun p => p.1 == k) then m.map (fun p => if p.1 = k then (k, v) else p)
  else m ++ [(k, v)]

/-- `match|select`: focus a left item. -/
def match_select (d : MatchingDraft) (left : String) : MatchingDraft :=
  { d with focus := some left }

/-- `match|assign`: with no focused left item (Python `if not left` — also
rejects the empty string) nothing happens; otherwise every pair whose
value is `right` is deleted, `left → right` is recorded, and the focus is
cleared. -/
def match_assign (d : MatchingDraft) (right : String) : MatchingDraft :=
  match d.focus with
  | Option.none => d
  | Option.some left =>
    if left = "" then d
    else
      { mapping := dict_set (d.mapping.filter (fun p => p.2 != right)) left right,
        focus := Option.none }

/-- `match|reset`: clear the mapping and the focus. -/
def match_reset (_ : MatchingDraft) : MatchingDraft :=
  { mapping := [], focus := Option.none }

/-- Draft states reachable through the matching callback handlers,
starting from the empty draft `setdefault` creates. -/
inductive ReachableDraft : MatchingDraft → Prop
  | init : ReachableDraft { mapping := [], focus := Option.none }
  | select (d : MatchingDraft) (left : String) :
      ReachableDraft d → ReachableDraft (match_select d left)
  | assign (d : MatchingDraft) (right : String) :
      ReachableDraft d → ReachableDraft (match_assign d right)
  | reset (d : MatchingDraft) :
      ReachableDraft d → ReachableDraft (match_reset d)

/-- Invariant of a matching draft mapping: left keys are unique (it is a
dict) and right values are pairwise distinct. -/
def draft_inv (m : List (String × String)) : Prop :=
  (m.map Prod.fst).Nodup ∧ m.Pairwise (fun a b => a.2 ≠ b.2)

theorem dict_set_inv (m : List (String × String)) (k v : String)
    (hinv : draft_inv m) (hv : ∀ p ∈ m, p.2 ≠ v) : draft_inv (dict_set m k v) := by
  obtain ⟨hkeys, hvals⟩ := hinv
  have hk1 : m.Pairwise (fun a b => a.1 ≠ b.1) := by
    rw [List.Nodup, List.pairwise_map] at hkeys
    exact hkeys
  unfold dict_set
  split_ifs with hk
  · constructor
    · have hmap : (m.map (fun p => if p.1 = k then (k, v) else p)).map Prod.fst =
          m.map Prod.fst := by
        rw [List.map_map]
        apply List.map_congr_left
        intro p _
        by_cases hpk : p.1 = k
        · simp [hpk]
        · simp [hpk]
      rw [hmap]
      exact hkeys
    · rw [List.pairwise_map]
      refine (hk1.and hvals).imp_of_mem ?_
      intro a b ha hb hab
      show (if a.1 = k then (k, v) else a).2 ≠ (if b.1 = k then (k, v) else b).2
      by_cases h1 : a.1 = k <;> by_cases h2 : b.1 = k
      · exact absurd (h1.trans h2.symm) hab.1
      · rw [if_pos h1, if_neg h2]
        exact fun hcon => hv b hb hcon.symm
      · rw [if_neg h1, if_pos h2]
        exact fun hcon => hv a ha hcon
      · rw [if_neg h1, if_neg h2]
        exact hab.2
  · constructor
    · have hknotin : ∀ p ∈ m, ¬ p.1 = k := by
        intro p hp hpk
        apply hk
        rw [List.any_eq_true]
        exact ⟨p, hp, by simpa using hpk⟩
      rw [List.map_append]
      simp only [List.map_cons, List.map_nil]
      rw [List.nodup_append]
      refine ⟨hkeys, by simp, ?_⟩
      intro x hx hxk
      obtain ⟨p, hp, hpx⟩ := List.mem_map.mp hx
      simp only [List.mem_singleton] at hxk
      exact hknotin p hp (hpx.trans hxk)
    · rw [List.pairwise_append]
      refine ⟨hvals, by simp, ?_⟩
      intro a ha b hb
      simp only [List.mem_singleton] at hb
      rw [hb]
      exact fun hav => hv a ha hav

theorem match_assign_inv (d : MatchingDraft) (right : String)
    (h : draft_inv d.mapping) : draft_inv (match_assign d right).mapping := by
  unfold match_assign
  cases hf : d.focus with
  | none => exact h
  | some left =>
    show draft_inv (if left = "" then d
      else { mapping := dict_set (d.mapping.filter (fun p => p.2 != right)) left right,
             focus := Option.none }).mapping
    split_ifs with hl
    · exact h
    · apply dict_set_inv
      · constructor
        · rw [List.Nodup, List.pairwise_map]
          have hk1 : d.mapping.Pairwise (fun a b => a.1 ≠ b.1) := by
            have hn := h.1
            rw [List.Nodup, List.pairwise_map] at hn
            exact hn
          exact hk1.filter _
        · exact h.2.filter _
      · intro p hp
        have := List.of_mem_filter hp
        simpa using this

theorem reachable_draft_inv (d : MatchingDraft) (h : ReachableDraft d) :
    draft_inv d.mapping := by
  induction h with
  | init => exact ⟨List.nodup_nil, List.Pairwise.nil⟩
  | select d l _ ih => exact ih
  | assign d r _ ih => exact match_assign_inv d r ih
  | reset d _ _ => exact ⟨List.nodup_nil, List.Pairwise.nil⟩

theorem dict_set_mem (m : List (String × String)) (k v : String) :
    (k, v) ∈ dict_set m k v := by
  unfold dict_set
  split_ifs with hk
  · obtain ⟨p, hp, hpk⟩ : ∃ p ∈ m, p.1 = k := by simpa using hk
    rw [List.mem_map]
    exact ⟨p, hp, by simp [hpk]⟩
  · simp

theorem dict_set_right_unique (m : List (String × String)) (k v : String)
    (hm : ∀ p ∈ m, p.2 ≠ v) :
    ∀ p ∈ dict_set m k v, p.2 = v → p.1 = k := by
  intro p hp hpv
  unfold dict_set at hp
  split_ifs at hp with hk
  · obtain ⟨q, hq, hfq⟩ := List.mem_map.mp hp
    by_cases hqk : q.1 = k
    · rw [if_pos hqk] at hfq
      rw [← hfq]
    · rw [if_neg hqk] at hfq
      rw [← hfq] at hpv
      exact absurd hpv (hm q hq)
  · rcases List.mem_append.mp hp with h | h
    · exact absurd hpv (hm p h)
    · simp only [List.mem_singleton] at h
      rw [h]

/-- C6: matching assign first evicts any pair mapped to the chosen right
item and clears the pending focus, so at every reachable draft state each
right item is mapped to by at most one left item; concretely,
assign(1, A) followed by assign(2, A) yields the mapping \x7b2: A\x7d. -/
theorem matching_assign_right_unique :
    (∀ d, ReachableDraft d →
      d.mapping.Pairwise (fun a b => a.2 ≠ b.2) ∧
      (∀ left right, d.focus = some left → left ≠ "" →
        (match_assign d right).focus = Option.none ∧
        (left, right) ∈ (match_assign d right).mapping ∧
        ∀ p ∈ (match_assign d right).mapping, p.2 = right → p.1 = left)) ∧
    (match_assign (match_select (match_assign (match_select
        { mapping := [], focus := Option.none } "1") "A") "2") "A").mapping =
      [("2", "A")] := by
  constructor
  · intro d hd
    refine ⟨(reachable_draft_inv d hd).2, ?_⟩
    intro left right hf hl
    have hred : match_assign d right =
        { mapping := dict_set (d.mapping.filter (fun p => p.2 != right)) left right,
          focus := Option.none } := by
      simp [match_assign, hf, hl]
    rw [hred]
    have hnv : ∀ p ∈ d.mapping.filter (fun p => p.2 != right), p.2 ≠ right := by
      intro p hp
      have := List.of_mem_filter hp
      simpa using this
    exact ⟨rfl, dict_set_mem _ _ _, dict_set_right_unique _ _ _ hnv⟩
  · decide

/-- Reachable draft with left item "1" focused, for instantiating the C6
theorem. -/
def focusedDraft : MatchingDraft :=
  match_select { mapping := [], focus := Option.none } "1"

theorem matching_assign_right_unique_witness :
    focusedDraft.mapping.Pairwise (fun a b => a.2 ≠ b.2) ∧
    ((match_assign focusedDraft "A").focus = Option.none ∧
      ("1", "A") ∈ (match_assign focusedDraft "A").mapping ∧
      ∀ p ∈ (match_assign focusedDraft "A").mapping, p.2 = "A" → p.1 = "1") :=
  ⟨(matching_assign_right_unique.1 focusedDraft
      (ReachableDraft.select _ "1" ReachableDraft.init)).1,
   (matching_assign_right_unique.1 focusedDraft
      (ReachableDraft.select _ "1" ReachableDraft.init)).2 "1" "A" rfl (by decide)⟩

/-! Question materialization (`QuestionEngine._materialize` in
`question_engine.py`) and the loader's blueprint filter
(`question_loader.py`). -/

/-- `QuestionBlueprint` dataclass from `question_loader.py` (the metadata
map is dropped: materialization only copies it). -/
structure QuestionBlueprint where
  prompt : String
  topic : String
  options : List (String × Bool)
  explanation : String
deriving DecidableEq

/-- The `enumerate(options)` loop of `_materialize`, assigning positional
ids c1, c2, …. -/
def make_choices : Nat → List (String × Bool) → List Choice
  | _, [] => []
  | idx, (text, c) :: rest =>
    { id := "c" ++ toString (idx + 1), text := text, is_correct := c } ::
      make_choices (idx + 1) rest

/-- `QuestionEngine._materialize`: the in-place `random.shuffle` of the
copied option list is modelled by passing the shuffled list (any
permutation of the blueprint's options) explicitly, and the `uuid`-based
fresh id by passing it explicitly. -/
def materialize (bp : QuestionBlueprint) (shuffled : List (String × Bool))
    (block_number : Nat) (fresh_id : String) : Question :=
  let correct_count := (shuffled.filter (fun o => o.2)).length
  let qtype :=
    if correct_count > 1 then QuestionType.multi_choice else QuestionType.single_choice
  { id := fresh_id, block := block_number, topic := bp.topic, prompt := bp.prompt,
    explanation := bp.explanation, type := qtype,
    choices := make_choices 0 shuffled }

/-- The loader's acceptance test (`question_loader.py`): a blueprint whose
option list is empty or has no option flagged correct is skipped
(`if not options or correct_count == 0: continue`). -/
def loader_keeps (options : List (String × Bool)) : Bool :=
  !options.isEmpty && (options.filter (fun o => o.2)).length != 0

theorem make_choices_correct_count (idx : Nat) (l : List (String × Bool)) :
    ((make_choices idx l).filter (fun c => c.is_correct)).length =
      (l.filter (fun o => o.2)).length := by
  induction l generalizing idx with
  | nil => rfl
  | cons a t ih =>
    cases a with
    | mk text c => cases c <;> simp [make_choices, List.filter_cons, ih]

/-- C8: materialization classifies a blueprint by its number of
correct-flagged options — exactly 1 gives single-choice, 2 or more give
multi-choice; hence every single-choice question materialized from a
loader-accepted blueprint has exactly one choice with is_correct = true. -/
theorem materialize_classification (bp : QuestionBlueprint)
    (shuffled : List (String × Bool)) (blk : Nat) (fid : String)
    (hperm : shuffled.Perm bp.options) :
    ((bp.options.filter (fun o => o.2)).length = 1 →
      (materialize bp shuffled blk fid).type = QuestionType.single_choice) ∧
    (2 ≤ (bp.options.filter (fun o => o.2)).length →
      (materialize bp shuffled blk fid).type = QuestionType.multi_choice) ∧
    (loader_keeps bp.options = true →
      (materialize bp shuffled blk fid).type = QuestionType.single_choice →
      ((materialize bp shuffled blk fid).choices.filter
          (fun c => c.is_correct)).length = 1) := by
  have hflen : (shuffled.filter (fun o => o.2)).length =
      (bp.options.filter (fun o => o.2)).length :=
    (hperm.filter _).length_eq
  refine ⟨?_, ?_, ?_⟩
  · intro h1
    have : ¬ (shuffled.filter (fun o => o.2)).length > 1 := by omega
    simp [materialize, this]
  · intro h2
    have : (shuffled.filter (fun o => o.2)).length > 1 := by omega
    simp [materialize, this]
  · intro hl htype
    have hne : (bp.options.filter (fun o => o.2)).length ≠ 0 := by
      intro h0
      rw [List.length_eq_zero] at h0
      simp [loader_keeps] at hl
      obtain ⟨x, hx⟩ := hl.2
      have hmem : (x, true) ∈ bp.options.filter (fun o => o.2) := by
        rw [List.mem_filter]
        exact ⟨hx, rfl⟩
      rw [h0] at hmem
      exact absurd hmem (List.not_mem_nil _)
    have hle : ¬ (shuffled.filter (fun o => o.2)).length > 1 := by
      intro hgt
      simp [materialize, hgt] at htype
    have hch : (materialize bp shuffled blk fid).choices = make_choices 0 shuffled := rfl
    rw [hch, make_choices_correct_count]
    omega

/-- Blueprint with exactly one correct option, for instantiating the C8
theorem. -/
def demoBlueprint : QuestionBlueprint :=
  { prompt := "p", topic := "t", options := [("a", true), ("b", false)],
    explanation := "e" }

theorem materialize_classification_witness :
    ((materialize demoBlueprint [("b", false), ("a", true)] 1 "b1-x").type =
      QuestionType.single_choice) ∧
    ((materialize demoBlueprint [("b", false), ("a", true)] 1 "b1-x").choices.filter
        (fun c => c.is_correct)).length = 1 := by
  have h := materialize_classification demoBlueprint [("b", false), ("a", true)] 1 "b1-x"
    (List.Perm.swap ("a", true) ("b", false) [])
  exact ⟨h.1 (by decide), h.2.2 (by decide) (h.1 (by decide))⟩

/-! Per-answer feedback popup (`feedback_text` in `testing.py`). -/

/-- The verdict prefix plus the question's explanation, before the length
cap. -/
def feedback_full (r : QuestionResult) : String :=
  (if r.is_correct then "Верно ✅" else "Неверно ❌") ++ "\n" ++ r.question.explanation

/-- `feedback_text` from `testing.py`; Python `text[:187]` slices the
first 187 code points, modelled on the character list. -/
def feedback_text (r : QuestionResult) : String :=
  if (feedback_full r).length > 190 then
    String.mk ((feedback_full r).data.take 187) ++ "..."
  else feedback_full r

/-- C10: the feedback text is at most 190 characters — when the verdict
prefix plus explanation exceed 190 characters the text is cut to its first
187 characters followed by "..." (exactly 190), otherwise it is shown in
full. -/
theorem feedback_text_truncation (r : QuestionResult) :
    (feedback_text r).length ≤ 190 ∧
    ((feedback_full r).length ≤ 190 → feedback_text r = feedback_full r) ∧
    ((feedback_full r).length > 190 →
      feedback_text r = String.mk ((feedback_full r).data.take 187) ++ "..." ∧
      (feedback_text r).length = 190) := by
  by_cases h : (feedback_full r).length > 190
  · have h187 : 187 ≤ (feedback_full r).data.length := by
      have hd : (feedback_full r).length = (feedback_full r).data.length := rfl
      omega
    have hlen : (String.mk ((feedback_full r).data.take 187) ++ "...").length = 190 := by
      rw [String.length_append]
      have h1 : (String.mk ((feedback_full r).data.take 187)).length = 187 := by
        show ((feedback_full r).data.take 187).length = 187
        rw [List.length_take]
        omega
      rw [h1]
      rfl
    have hft : feedback_text r = String.mk ((feedback_full r).data.take 187) ++ "..." := by
      unfold feedback_text
      rw [if_pos h]
    refine ⟨?_, fun hc => absurd h (by omega), fun _ => ⟨hft, ?_⟩⟩
    · rw [hft, hlen]
    · rw [hft, hlen]
  · have hft : feedback_text r = feedback_full r := by
      unfold feedback_text
      rw [if_neg h]
    exact ⟨by rw [hft]; omega, fun _ => hft, fun hc => absurd hc h⟩

/-- Result whose explanation is 200 characters long, forcing truncation. -/
def longResult : QuestionResult :=
  { question := { demoQuestion "L1" 1 with explanation := String.mk (List.replicate 200 'x') },
    is_correct := false, user_answer := UserAnswer.pyStr "c1" }

set_option maxRecDepth 4000 in
theorem feedback_text_truncation_witness :
    (feedback_text longResult).length ≤ 190 ∧
    feedback_text longResult =
      String.mk ((feedback_full longResult).data.take 187) ++ "..." ∧
    (feedback_text longResult).length = 190 ∧
    feedback_text (demoResult "q1") = feedback_full (demoResult "q1") :=
  ⟨(feedback_text_truncation longResult).1,
   ((feedback_text_truncation longResult).2.2 (by decide)).1,
   ((feedback_text_truncation longResult).2.2 (by decide)).2,
   (feedback_text_truncation (demoResult "q1")).2.1 (by decide)⟩

/-! Final report (`build_summary`, `format_answer_text`,
`correct_answer_payload` in `testing.py`). -/

/-- `block_titles.get(n, "Блок n")`: dict lookup on Nat keys. -/
def pyGetNat (m : List (Nat × String)) (k : Nat) : Option String :=
  ((m.filter (fun p => p.1 = k)).getLast?).map Prod.snd

/-- `block_title` from `testing.py`. -/
def block_title (s : Session) (n : Nat) : String :=
  (pyGetNat s.block_titles n).getD ("Блок " ++ toString n)

/-- A single-quote character, kept out of string literals. -/
def pyQuote : String := String.mk [Char.ofNat 39]

/-- Python `str(dict)` — \x7b'k': 'v', …\x7d — faithful for keys and
values that Python repr prints verbatim (no quotes or escapes inside). -/
def pyStrOfDict (m : List (String × String)) : String :=
  "\x7b" ++
    String.intercalate ", "
      (m.map (fun p => pyQuote ++ p.1 ++ pyQuote ++ ": " ++ pyQuote ++ p.2 ++ pyQuote)) ++
  "\x7d"

/-- Python `str(answer)` for the scalar fallback branch of
`format_answer_text`. -/
def pyStrOfAnswer : UserAnswer → String
  | UserAnswer.pyNone => "None"
  | UserAnswer.pyStr s => s
  | UserAnswer.pyList l => "[" ++ String.intercalate ", " (l.map (fun e => pyQuote ++ e ++ pyQuote)) ++ "]"
  | UserAnswer.pyDict m => pyStrOfDict m

/-- `format_answer_text` from `testing.py`: renders a payload against a
question; the matching branch converts the payload with
`dict(answer or \x7b\x7d)`, which can raise. -/
def format_answer_text (q : Question) (answer : UserAnswer) : Except String String :=
  if q.type = QuestionType.matching then
    match toPyDict answer with
    | Except.error e => Except.error e
    | Except.ok mapping =>
      if mapping.isEmpty then Except.ok "—"
      else
        let right_lookup := q.matching_right.map (fun it => (it.id, it.label))
        Except.ok (String.intercalate "\n" (q.matching_left.map (fun item =>
          match pyGet mapping item.id with
          | Option.none => item.id ++ ". " ++ item.label ++ " → —"
          | Option.some right_id =>
            if right_id = "" then item.id ++ ". " ++ item.label ++ " → —"
            else
              item.id ++ ". " ++ item.label ++ " → " ++ right_id ++ ". " ++
                ((pyGet right_lookup right_id).getD right_id))))
  else
    let ids : List String :=
      match answer with
      | UserAnswer.pyList l => l
      | UserAnswer.pyNone => []
      | a => [pyStrOfAnswer a]
    let ids := if q.type = QuestionType.single_choice ∧ ids.length > 1 then ids.take 1 else ids
    let texts := (q.choices.filter (fun c => ids.contains c.id)).map Choice.text
    if texts.isEmpty then
      Except.ok (if ids.isEmpty then "—" else String.intercalate "; " ids)
    else Except.ok (String.intercalate "; " texts)

/-- `correct_answer_payload` from `testing.py`. -/
def correct_answer_payload (q : Question) : UserAnswer :=
  if q.type = QuestionType.matching then UserAnswer.pyDict q.correct_mapping
  else UserAnswer.pyList (correct_ids q)

/-- `inline_answer` from `build_summary`. -/
def inline_answer (t : String) : String :=
  t.replace "\n" "; "

/-- The `enumerate(mistakes, start=1)` loop of `build_summary`; the first
formatting failure propagates. -/
def mistake_lines : Nat → List QuestionResult → Except String (List String)
  | _, [] => Except.ok []
  | idx, r :: rest =>
    match format_answer_text r.question r.user_answer with
    | Except.error e => Except.error e
    | Except.ok ua =>
      match format_answer_text r.question (correct_answer_payload r.question) with
      | Except.error e => Except.error e
      | Except.ok ca =>
        match mistake_lines (idx + 1) rest with
        | Except.error e => Except.error e
        | Except.ok tail =>
          Except.ok ((toString idx ++ ". " ++ r.question.prompt ++ " Ответ: " ++
            inline_answer ua ++ ". Правильно: " ++ inline_answer ca ++ ".") :: tail)

/-- Boolean string order used to model Python `sorted` on strings. -/
def strLe (a b : String) : Bool := decide (a ≤ b)

/-- `sorted(\x7bresult.question.topic for result in mistakes if
result.question.topic\x7d)`: distinct non-empty topics in ascending
order. -/
def mistake_topics (ms : List QuestionResult) : List String :=
  (((ms.map (fun r => r.question.topic)).filter (fun t => t ≠ "")).dedup).mergeSort strLe

/-- The "Темы с ошибками" block of `build_summary`. -/
def topic_block (ms : List QuestionResult) : List String :=
  let topics := mistake_topics ms
  if topics.isEmpty then ["- Нет тем с ошибками"]
  else topics.map (fun t => "- " ++ t)

/-- The header lines of `build_summary`: name, overall score, and the
per-block scores for blocks that have results. -/
def summary_header (s : Session) : List String :=
  let correct_total := (s.answers.filter (fun a => a.is_correct)).length
  let total := s.total_questions
  let block_one_results := s.answers.filter (fun a => a.question.block = 1)
  let block_two_results := s.answers.filter (fun a => a.question.block = 2)
  let block_one_correct := (block_one_results.filter (fun a => a.is_correct)).length
  let block_two_correct := (block_two_results.filter (fun a => a.is_correct)).length
  ["Итоги для " ++ s.profile.full_name ++ " (" ++ s.profile.position ++ "):",
   "Всего: " ++ toString correct_total ++ "/" ++ toString total ++ " верно, ошибок: " ++
     toString ((total : Int) - (correct_total : Int)) ++ "."] ++
  (if block_one_results.isEmpty then [] else
    [block_title s 1 ++ ": " ++ toString block_one_correct ++ "/" ++
      toString s.block_one.length ++ " верно."]) ++
  (if block_two_results.isEmpty then [] else
    [block_title s 2 ++ ": " ++ toString block_two_correct ++ "/" ++
      toString s.block_two.length ++ " верно."])

/-- `build_summary` from `testing.py`, as the list of lines it joins. -/
def build_summary_lines (s : Session) : Except String (List String) :=
  let mistakes := s.answers.filter (fun a => !a.is_correct)
  if mistakes.isEmpty then
    Except.ok (summary_header s ++ ["", "Ошибок нет — отличная работа!"])
  else
    match mistake_lines 1 mistakes with
    | Except.error e => Except.error e
    | Except.ok ml =>
      Except.ok (summary_header s ++ ["", "Ошибки в вопросах:"] ++ ml ++
        ["", "Темы с ошибками:"] ++ topic_block mistakes)

/-- `build_summary`: the joined report text. -/
def build_summary (s : Session) : Except String String :=
  (build_summary_lines s).map (String.intercalate "\n")

theorem format_ok_of_toPyDict (q : Question) (ua : UserAnswer)
    (h : q.type = QuestionType.matching → (toPyDict ua).isOk = true) :
    ∃ t, format_answer_text q ua = Except.ok t := by
  unfold format_answer_text
  by_cases hq : q.type = QuestionType.matching
  · rw [if_pos hq]
    cases hd : toPyDict ua with
    | error e =>
      rw [hd] at h
      simp [Except.isOk, Except.toBool] at h
      exact absurd (h hq) (by simp)
    | ok m => by_cases hm : m.isEmpty <;> simp [hm]
  · rw [if_neg hq]
    dsimp only
    split_ifs <;> exact ⟨_, rfl⟩

theorem format_correct_payload_ok (q : Question) :
    ∃ ca, format_answer_text q (correct_answer_payload q) = Except.ok ca := by
  apply format_ok_of_toPyDict
  intro hq
  simp [correct_answer_payload, hq, toPyDict, Except.isOk, Except.toBool]

theorem mistake_lines_spec (idx : Nat) (ms : List QuestionResult)
    (h : ∀ r ∈ ms, (format_answer_text r.question r.user_answer).isOk = true) :
    ∃ ml, mistake_lines idx ms = Except.ok ml ∧ ml.length = ms.length ∧
      ∀ j, j < ms.length → ∃ r ua ca,
        ms.get? j = some r ∧
        format_answer_text r.question r.user_answer = Except.ok ua ∧
        format_answer_text r.question (correct_answer_payload r.question) = Except.ok ca ∧
        ml.get? j = some (toString (idx + j) ++ ". " ++ r.question.prompt ++ " Ответ: " ++
          inline_answer ua ++ ". Правильно: " ++ inline_answer ca ++ ".") := by
  induction ms generalizing idx with
  | nil => exact ⟨[], rfl, rfl, fun j hj => absurd hj (Nat.not_lt_zero j)⟩
  | cons r rest ih =>
    have hr := h r (List.mem_cons_self _ _)
    obtain ⟨ua, hua⟩ : ∃ ua, format_answer_text r.question r.user_answer = Except.ok ua := by
      cases hfa : format_answer_text r.question r.user_answer with
      | error e => rw [hfa] at hr; simp [Except.isOk, Except.toBool] at hr
      | ok v => exact ⟨v, rfl⟩
    obtain ⟨ca, hca⟩ := format_correct_payload_ok r.question
    obtain ⟨tl, htl, hlen, hspec⟩ := ih (idx + 1) (fun x hx => h x (List.mem_cons_of_mem _ hx))
    refine ⟨(toString idx ++ ". " ++ r.question.prompt ++ " Ответ: " ++ inline_answer ua ++
      ". Правильно: " ++ inline_answer ca ++ ".") :: tl, ?_, ?_, ?_⟩
    · simp [mistake_lines, hua, hca, htl]
    · simp [hlen]
    · intro j hj
      cases j with
      | zero => exact ⟨r, ua, ca, rfl, hua, hca, by simp⟩
      | succ j =>
        obtain ⟨r2, ua2, ca2, hg, h1, h2, h3⟩ := hspec j (by simpa using hj)
        refine ⟨r2, ua2, ca2, by simpa using hg, h1, h2, ?_⟩
        have harith : idx + (j + 1) = idx + 1 + j := by omega
        rw [show (((toString idx ++ ". " ++ r.question.prompt ++ " Ответ: " ++
          inline_answer ua ++ ". Правильно: " ++ inline_answer ca ++ ".") :: tl).get? (j + 1)) =
            tl.get? j from rfl, harith]
        exact h3

theorem strLe_trans (a b c : String) (hab : strLe a b = true) (hbc : strLe b c = true) :
    strLe a c = true :=
  decide_eq_true (le_trans (of_decide_eq_true hab) (of_decide_eq_true hbc))

theorem strLe_total (a b : String) : (strLe a b || strLe b a) = true := by
  rcases le_total a b with h | h <;> simp [strLe, h]

/-- C9: build_summary is a pure function of the profile, blocks, titles
and answers (transient and cursor state do not affect it); with zero
mistakes it is exactly the header plus the congratulation, with no mistake
listing; otherwise it is the header, one rendered line per incorrect
result (submitted and correct answers in human-readable form), and the
distinct topics with a mistake, sorted. -/
theorem build_summary_spec (s : Session) :
    (∀ cb ci ri mcs mst mf,
      build_summary { s with current_block := cb, current_index := ci, review_index := ri,
                             multi_choice_state := mcs, matching_state := mst,
                             matching_focus := mf } = build_summary s) ∧
    ((∀ r ∈ s.answers, r.is_correct = true) →
      build_summary_lines s =
        Except.ok (summary_header s ++ ["", "Ошибок нет — отличная работа!"])) ∧
    (∀ r0, r0 ∈ s.answers → r0.is_correct = false →
      (∀ r ∈ s.answers, r.is_correct = false →
        (format_answer_text r.question r.user_answer).isOk = true) →
      ∃ ml, mistake_lines 1 (s.answers.filter (fun a => !a.is_correct)) = Except.ok ml ∧
        build_summary_lines s =
          Except.ok (summary_header s ++ ["", "Ошибки в вопросах:"] ++ ml ++
            ["", "Темы с ошибками:"] ++
            topic_block (s.answers.filter (fun a => !a.is_correct))) ∧
        ml.length = (s.answers.filter (fun a => !a.is_correct)).length ∧
        (∀ j, j < (s.answers.filter (fun a => !a.is_correct)).length →
          ∃ r ua ca,
            (s.answers.filter (fun a => !a.is_correct)).get? j = some r ∧
            format_answer_text r.question r.user_answer = Except.ok ua ∧
            format_answer_text r.question (correct_answer_payload r.question) =
              Except.ok ca ∧
            ml.get? j = some (toString (1 + j) ++ ". " ++ r.question.prompt ++
              " Ответ: " ++ inline_answer ua ++ ". Правильно: " ++ inline_answer ca ++
              ".")) ∧
        (mistake_topics (s.answers.filter (fun a => !a.is_correct))).Pairwise
          (fun a b => a ≤ b) ∧
        (mistake_topics (s.answers.filter (fun a => !a.is_correct))).Nodup ∧
        (∀ t, t ∈ mistake_topics (s.answers.filter (fun a => !a.is_correct)) ↔
          (t ≠ "" ∧
            ∃ r ∈ s.answers.filter (fun a => !a.is_correct), r.question.topic = t))) := by
  refine ⟨fun cb ci ri mcs mst mf => rfl, ?_, ?_⟩
  · intro hall
    have hemp : s.answers.filter (fun a => !a.is_correct) = [] := by
      rw [List.filter_eq_nil_iff]
      intro a ha
      simp [hall a ha]
    unfold build_summary_lines
    rw [hemp]
    rfl
  · intro r0 hr0 hr0f hok
    have hmem0 : r0 ∈ s.answers.filter (fun a => !a.is_correct) := by
      rw [List.mem_filter]
      exact ⟨hr0, by simp [hr0f]⟩
    have hne : (s.answers.filter (fun a => !a.is_correct)).isEmpty = false := by
      rw [List.isEmpty_eq_false]
      intro h0
      rw [h0] at hmem0
      exact absurd hmem0 (List.not_mem_nil r0)
    have hokm : ∀ r ∈ s.answers.filter (fun a => !a.is_correct),
        (format_answer_text r.question r.user_answer).isOk = true := by
      intro r hr
      rw [List.mem_filter] at hr
      exact hok r hr.1 (by simpa using hr.2)
    obtain ⟨ml, hml, hlen, hspec⟩ :=
      mistake_lines_spec 1 (s.answers.filter (fun a => !a.is_correct)) hokm
    refine ⟨ml, hml, ?_, hlen, hspec, ?_, ?_, ?_⟩
    · simp [build_summary_lines, hne, hml]
    · have hs := @List.sorted_mergeSort String strLe strLe_trans strLe_total
        (((s.answers.filter (fun a => !a.is_correct)).map
          (fun r => r.question.topic)).filter (fun t => t ≠ "")).dedup
      exact hs.imp (fun h => by simpa [strLe] using h)
    · exact (List.mergeSort_perm _ strLe).symm.nodup (List.nodup_dedup _)
    · intro t
      rw [mistake_topics, List.mem_mergeSort, List.mem_dedup, List.mem_filter,
        List.mem_map]
      constructor
      · rintro ⟨⟨r, hr, hrt⟩, ht⟩
        exact ⟨by simpa using ht, r, hr, hrt⟩
      · rintro ⟨ht, r, hr, hrt⟩
        exact ⟨⟨r, hr, hrt⟩, by simpa using ht⟩

/-- Session with one incorrect answer among three, for instantiating the
C9 theorem. -/
def mistakeSession : Session :=
  { navDemoSession with
    answers :=
      [demoResult "a1",
       { question := { demoQuestion "a2" 1 with topic := "Кровь" },
         is_correct := false, user_answer := UserAnswer.pyStr "c9" },
       demoResult "a3"] }

/-- `navDemoSession` with its cursor, review and transient state changed,
for checking that the summary ignores those fields. -/
def scrubbedSession : Session :=
  { navDemoSession with
    current_block := 1, current_index := 0,
    review_index := some 1, multi_choice_state := [("x", ["c1"])],
    matching_state := [], matching_focus := [] }

theorem build_summary_spec_witness :
    (build_summary scrubbedSession = build_summary navDemoSession) ∧
    (build_summary_lines navDemoSession =
      Except.ok (summary_header navDemoSession ++ ["", "Ошибок нет — отличная работа!"])) ∧
    (∃ ml,
      mistake_lines 1 (mistakeSession.answers.filter (fun a => !a.is_correct)) =
        Except.ok ml ∧
      build_summary_lines mistakeSession =
        Except.ok (summary_header mistakeSession ++ ["", "Ошибки в вопросах:"] ++ ml ++
          ["", "Темы с ошибками:"] ++
          topic_block (mistakeSession.answers.filter (fun a => !a.is_correct))) ∧
      ml.length = (mistakeSession.answers.filter (fun a => !a.is_correct)).length) :=
  ⟨(build_summary_spec navDemoSession).1 1 0 (some 1) [("x", ["c1"])] [] [],
   (build_summary_spec navDemoSession).2.1 (by decide),
   (fun ⟨ml, h1, h2, h3, _⟩ => ⟨ml, h1, h2, h3⟩)
     ((build_summary_spec mistakeSession).2.2
       { question := { demoQuestion "a2" 1 with topic := "Кровь" },
         is_correct := false, user_answer := UserAnswer.pyStr "c9" }
       (by decide) rfl (by decide))⟩

end AttestationBot
